import Mathlib

/-!
Verification of the runtime core of `src/main.js` (class `BasicWorldDemo` and
the embedded PCSS shadow shader `_PCSS`).

State-machine part: `BasicWorldDemo` keeps two independent booleans
`_gameStarted` and `_gameOver`, a selected character string
`_currentCharacter`, a three.js scene (a list of actors here), and the
previous `requestAnimationFrame` timestamp `previousRAF_` (`none` before the
first tick).  Timestamps are modelled as rationals.

The constructor runs `_Initialize` (which builds the scene and starts the
RAF loop) before `_currentCharacter` is assigned, so the startup scene's
player is built with an undefined character; we model the character bound
into a player actor as an `Option String`, `none` standing for the
JavaScript `undefined`.

Scene actors carry a generation number: every call of the scene-building
code (`_InitializeScene`, modelled by `buildScene`, and `_ResetPlayer`)
stamps the actors it creates with a fresh generation, so that "no actor of
the prior generation survives a rebuild" is expressible.
-/

/-- The actors `_InitializeScene` and `_ResetPlayer` place into the scene:
two lights, the ground plane, the sky dome, and the world / player /
background collaborators.  The player actor records the character it was
constructed with. -/
inductive ActorKind
  | directionalLight
  | hemisphereLight
  | ground
  | sky
  | worldManager
  | playerActor (character : Option String)
  | backgroundActor
deriving DecidableEq

/-- An entity in the scene: its kind plus the generation of the scene-build
that created it. -/
structure Actor where
  kind : ActorKind
  gen : ℕ
deriving DecidableEq

/-- Whether an actor is the player actor (the one `_ResetPlayer` removes). -/
def isPlayer : Actor → Bool
  | ⟨ActorKind.playerActor _, _⟩ => true
  | _ => false

/-- The observable state of a `BasicWorldDemo` instance. -/
structure AppState where
  gameStarted : Bool
  gameOver : Bool
  currentCharacter : Option String
  scene : List Actor
  previousRAF : Option ℚ
  nextGen : ℕ
deriving DecidableEq

/-- The spec's session-state enumeration. -/
inductive SessionState
  | Idle
  | Playing
  | GameOver
deriving DecidableEq

/-- The session state determined by the two booleans of the code:
`_gameOver` means GameOver, otherwise `_gameStarted` means Playing,
otherwise Idle.  (The combination started = false, over = true is
unreachable; see the invariant theorem for claim C10.) -/
def sessionState (s : AppState) : SessionState :=
  if s.gameOver then SessionState.GameOver
  else if s.gameStarted then SessionState.Playing
  else SessionState.Idle

/-- `_InitializeScene` (src/main.js lines 205-264): lights, ground, sky,
then the world, player and background collaborators, the player bound to
`_currentCharacter`.  All actors are stamped with the generation `g` of
this build. -/
def buildScene (character : Option String) (g : ℕ) : List Actor :=
  [⟨ActorKind.directionalLight, g⟩, ⟨ActorKind.hemisphereLight, g⟩,
   ⟨ActorKind.ground, g⟩, ⟨ActorKind.sky, g⟩, ⟨ActorKind.worldManager, g⟩,
   ⟨ActorKind.playerActor character, g⟩, ⟨ActorKind.backgroundActor, g⟩]

/-- The state after the constructor (src/main.js lines 118-131):
`_Initialize` builds the scene while `_currentCharacter` is still
undefined, then the flags and the character are assigned. -/
def initApp : AppState :=
  { gameStarted := false, gameOver := false,
    currentCharacter := some "Velociraptor",
    scene := buildScene none 0, previousRAF := none, nextGen := 1 }

/-- `_ResetPlayer` (lines 160-171): remove the current player actor from the
scene and append a fresh one bound to `_currentCharacter`. -/
def resetPlayer (s : AppState) : AppState :=
  { s with
      scene := s.scene.filter (fun a => !(isPlayer a)) ++
        [⟨ActorKind.playerActor s.currentCharacter, s.nextGen⟩],
      nextGen := s.nextGen + 1 }

/-- `_ResetGame` (lines 173-178): `scene_.clear()` followed by
`_InitializeScene()` replaces the whole scene, then `_gameOver = false`. -/
def resetGame (s : AppState) : AppState :=
  { s with
      scene := buildScene s.currentCharacter s.nextGen,
      nextGen := s.nextGen + 1,
      gameOver := false }

/-- `_OnStart` (lines 133-143): read the dropdown, `_ResetPlayer`, set
`_gameStarted = true`.  No state-precondition check appears in the code. -/
def onStart (s : AppState) (dropdown : String) : AppState :=
  let s1 := { s with currentCharacter := some dropdown }
  let s2 := resetPlayer s1
  { s2 with gameStarted := true }

/-- `_OnReplay` (lines 150-158): read the dropdown, `_ResetGame`, set
`_gameStarted = true`.  No state-precondition check appears in the code. -/
def onReplay (s : AppState) (dropdown : String) : AppState :=
  let s1 := { s with currentCharacter := some dropdown }
  let s2 := resetGame s1
  { s2 with gameStarted := true }

/-- `_OnCharacterSelect` (lines 145-148): record the selection only. -/
def onCharacterSelect (s : AppState) (c : String) : AppState :=
  { s with currentCharacter := some c }

/-- Observable collaborator calls made during a tick. -/
inductive Event
  | updatePlayer (dt : ℚ)
  | updateWorld (dt : ℚ)
  | updateBackground (dt : ℚ)
  | render (scene : List Actor)
deriving DecidableEq

/-- Whether an event is the render call. -/
def isRender : Event → Bool
  | Event.render _ => true
  | _ => false

/-- Whether an event is a collaborator update call. -/
def isUpdate (e : Event) : Bool := !(isRender e)

/-- `Step_` (lines 286-299): early return unless started and not over;
otherwise update player, world, background in that order, then set
`_gameOver` if the player collaborator reports game over (`pg`). -/
def Step (s : AppState) (timeElapsed : ℚ) (pg : Bool) : AppState × List Event :=
  if !s.gameStarted || s.gameOver then (s, [])
  else
    let evs := [Event.updatePlayer timeElapsed, Event.updateWorld timeElapsed,
                Event.updateBackground timeElapsed]
    if pg && !s.gameOver then ({ s with gameOver := true }, evs) else (s, evs)

/-- The delta-seconds a tick at timestamp `t` computes:
`(t - previousRAF_) / 1000`, where on the first tick `previousRAF_` has
just been set to `t` itself. -/
def dtOf (s : AppState) (t : ℚ) : ℚ := (t - s.previousRAF.getD t) / 1000

/-- One invocation of the `RAF_` callback (lines 272-284) at timestamp `t`,
with the player collaborator's terminal flag `pg`: record `t` as
`previousRAF_` if this is the first tick, reschedule (not observable),
run `Step_((t - previousRAF_)/1000)`, render the current scene, and set
`previousRAF_ = t`. -/
def tick (s : AppState) (t : ℚ) (pg : Bool) : AppState × List Event :=
  let s0 := if s.previousRAF = none then { s with previousRAF := some t } else s
  let res := Step s0 ((t - s0.previousRAF.getD t) / 1000) pg
  ({ res.1 with previousRAF := some t }, res.2 ++ [Event.render res.1.scene])

/-- The external stimuli the application reacts to: the two buttons, the
character dropdown, and a display-refresh callback carrying a timestamp
and the player collaborator's terminal flag. -/
inductive UIEvent
  | start (dropdown : String)
  | replay (dropdown : String)
  | select (dropdown : String)
  | frame (t : ℚ) (pg : Bool)

/-- Apply one external stimulus to the application state. -/
def applyEvent (s : AppState) (e : UIEvent) : AppState :=
  match e with
  | UIEvent.start c => onStart s c
  | UIEvent.replay c => onReplay s c
  | UIEvent.select c => onCharacterSelect s c
  | UIEvent.frame t pg => (tick s t pg).1

/-- The states reachable from the constructor's state by external stimuli. -/
inductive Reachable : AppState → Prop
  | init : Reachable initApp
  | step (s : AppState) (e : UIEvent) : Reachable s → Reachable (applyEvent s e)

/-- Every actor built by `buildScene` carries the generation of that build. -/
lemma buildScene_gen (ch : Option String) (g : ℕ) :
    ∀ a ∈ buildScene ch g, a.gen = g := by
  intro a ha
  simp only [buildScene, List.mem_cons, List.not_mem_nil, or_false] at ha
  rcases ha with h | h | h | h | h | h | h <;> subst h <;> rfl

/-- Claim C1, counterexample: calling `_OnReplay` while the session state is
Idle (not GameOver) raises no precondition violation and silently moves the
session state to Playing — the operation mutates the state. -/
theorem c1_cex :
    sessionState initApp = SessionState.Idle ∧
    sessionState (onReplay initApp "Trex") = SessionState.Playing ∧
    sessionState (onReplay initApp "Trex") ≠ sessionState initApp := by
  refine ⟨rfl, rfl, ?_⟩
  decide

/-- Claim C1 as amended: `_OnStart` and `_OnReplay` perform no
state-precondition check at all.  Called in any state they carry out their
full normal effect: both overwrite the selected character from the dropdown
and set `_gameStarted = true`; `_OnReplay` additionally rebuilds the whole
scene and clears `_gameOver`, while `_OnStart` leaves `_gameOver` as it
was.  No violation is signalled and wrong-state calls silently mutate the
session state. -/
theorem c1_thm (s : AppState) (c : String) :
    (onStart s c).gameStarted = true ∧
    (onStart s c).currentCharacter = some c ∧
    (onStart s c).gameOver = s.gameOver ∧
    (onReplay s c).gameStarted = true ∧
    (onReplay s c).gameOver = false ∧
    (onReplay s c).currentCharacter = some c ∧
    (onReplay s c).scene = buildScene (some c) s.nextGen :=
  ⟨rfl, rfl, rfl, rfl, rfl, rfl, rfl⟩

/-- Claim C3: on a tick whose session state is Playing, the collaborator
update calls are exactly `player.Update`, then `world.Update`, then
`background.Update`, each once, all with the tick's delta-seconds; on a
tick in Idle or GameOver, no collaborator update is invoked. -/
theorem c3_thm (s : AppState) (t : ℚ) (pg : Bool) :
    (tick s t pg).2.filter isUpdate =
      if sessionState s = SessionState.Playing then
        [Event.updatePlayer (dtOf s t), Event.updateWorld (dtOf s t),
         Event.updateBackground (dtOf s t)]
      else [] := by
  rcases s with ⟨gs, go, cc, sc, prev, ng⟩
  cases gs <;> cases go <;> cases prev <;> cases pg <;>
    simp [tick, Step, sessionState, dtOf, isUpdate, isRender]

/-- Claim C8: every tick renders exactly once, with the current scene,
regardless of the session state. -/
theorem c8_thm (s : AppState) (t : ℚ) (pg : Bool) :
    (tick s t pg).2.filter isRender = [Event.render s.scene] := by
  rcases s with ⟨gs, go, cc, sc, prev, ng⟩
  cases gs <;> cases go <;> cases prev <;> cases pg <;>
    simp [tick, Step, isRender]

/-- Claim C4, counterexample: on the frame loop's first tick (previous
timestamp still unset), the render call is performed — the tick does not
stop after recording the timestamp and rescheduling. -/
theorem c4_cex : Event.render initApp.scene ∈ (tick initApp 5 false).2 := by
  decide

/-- Claim C4 as amended: on the first tick the timestamp is recorded as the
previous timestamp before the delta is computed, so the tick's
delta-seconds is 0; the step and the render are still executed that tick
(updates run with delta 0 if the session is Playing), so no delta based on
time elapsed before the loop started affects any update. -/
theorem c4_thm (s : AppState) (t : ℚ) (pg : Bool) (h : s.previousRAF = none) :
    (tick s t pg).2.filter isUpdate =
      (if sessionState s = SessionState.Playing then
        [Event.updatePlayer 0, Event.updateWorld 0, Event.updateBackground 0]
      else []) ∧
    (tick s t pg).2.filter isRender = [Event.render s.scene] ∧
    (tick s t pg).1.previousRAF = some t := by
  rcases s with ⟨gs, go, cc, sc, prev, ng⟩
  subst h
  cases gs <;> cases go <;> cases pg <;>
    simp [tick, Step, sessionState, isUpdate, isRender]

/-- Witness for claim C4's amended theorem at the constructor's state. -/
theorem c4_witness :
    initApp.previousRAF = none ∧
    ((tick initApp 5 false).2.filter isUpdate =
      (if sessionState initApp = SessionState.Playing then
        [Event.updatePlayer 0, Event.updateWorld 0, Event.updateBackground 0]
      else []) ∧
    (tick initApp 5 false).2.filter isRender = [Event.render initApp.scene] ∧
    (tick initApp 5 false).1.previousRAF = some 5) :=
  ⟨rfl, c4_thm initApp 5 false rfl⟩

/-- Claim C5: `_OnReplay` from GameOver tears the scene down wholesale and
rebuilds the startup baseline (`_InitializeScene`, i.e. `buildScene`) with
the player bound to the dropdown character, stamps every rebuilt actor with
a fresh generation, leaves no lower-generation actor in the rebuilt scene,
clears `_gameOver`, and moves the session state to Playing; the rebuilt
scene has the same actor count as the startup scene. -/
theorem c5_thm (s : AppState) (c : String)
    (h : sessionState s = SessionState.GameOver) :
    (onReplay s c).scene = buildScene (some c) s.nextGen ∧
    (∀ a, a ∈ (onReplay s c).scene → a.gen = s.nextGen) ∧
    (∀ a, a ∈ s.scene → a.gen < s.nextGen → a ∉ (onReplay s c).scene) ∧
    (onReplay s c).gameOver = false ∧
    (onReplay s c).gameStarted = true ∧
    sessionState (onReplay s c) = SessionState.Playing ∧
    (onReplay s c).scene.length = initApp.scene.length := by
  have hgen : ∀ a, a ∈ (onReplay s c).scene → a.gen = s.nextGen := by
    intro a ha
    exact buildScene_gen (some c) s.nextGen a ha
  refine ⟨rfl, hgen, ?_, rfl, rfl, rfl, rfl⟩
  intro a _ hlt hmem
  have := hgen a hmem
  omega

/-- A concrete GameOver state: the game was started and the terminal flag
was raised during play. -/
def sampleOverState : AppState :=
  { gameStarted := true, gameOver := true,
    currentCharacter := some "Velociraptor",
    scene := buildScene (some "Velociraptor") 0, previousRAF := some 5,
    nextGen := 1 }

/-- Witness for claim C5's theorem at a concrete GameOver state. -/
theorem c5_witness :
    sessionState sampleOverState = SessionState.GameOver ∧
    (onReplay sampleOverState "Trex").gameOver = false :=
  ⟨by decide, (c5_thm sampleOverState "Trex" (by decide)).2.2.2.1⟩

/-- Claim C10: in every reachable state, `_gameOver = true` implies
`_gameStarted = true` — "over without ever having been started" is
unreachable, because `Step_` sets `_gameOver` only under a guard requiring
`_gameStarted`. -/
theorem c10_thm (s : AppState) (h : Reachable s) (h2 : s.gameOver = true) :
    s.gameStarted = true := by
  induction h with
  | init => simp [initApp] at h2
  | step s0 e hr ih =>
    cases e with
    | start c => rfl
    | replay c => simp [applyEvent, onReplay, resetGame] at h2
    | select c =>
      exact ih h2
    | frame t pg =>
      rcases s0 with ⟨gs, go, cc, sc, prev, ng⟩
      cases gs <;> cases go <;> cases prev <;> cases pg <;>
        simp_all [applyEvent, tick, Step]

/-- Witness for claim C10's theorem: start then one Playing tick whose
player reports the terminal condition yields a reachable state with
`_gameOver = true`, and the theorem gives `_gameStarted = true` there. -/
theorem c10_witness :
    (applyEvent (applyEvent initApp (UIEvent.start "Trex"))
        (UIEvent.frame 5 true)).gameStarted = true :=
  c10_thm _ (Reachable.step _ _ (Reachable.step _ _ Reachable.init)) (by decide)

/-!
PCSS part: the `_PCSS` shader string (src/main.js lines 26-111), embedded
over the reals.  A shadow map is a function from a UV coordinate to the
already-decoded depth (`unpackRGBAToDepth(texture2D(...))` composed); the
GLSL `rand` hash, which the shader inherits from three.js, is a parameter
— any function from the seed to a real.  The global `poissonDisk` array is
the list built by `initPoissonSamples`, indexed with default `(0, 0)`. -/

/-- `#define NUM_SAMPLES 17` (line 32). -/
def NUM_SAMPLES : ℕ := 17

/-- `#define NUM_RINGS 11` (line 33). -/
def NUM_RINGS : ℕ := 11

/-- `#define NEAR_PLANE 1.0` (line 30). -/
def NEAR_PLANE : ℝ := 1

/-- `#define LIGHT_SIZE_UV (LIGHT_WORLD_SIZE / LIGHT_FRUSTUM_WIDTH)`
(lines 27-29). -/
noncomputable def LIGHT_SIZE_UV : ℝ := 0.05 / 3.75

/-- `ANGLE_STEP = PI2 * float(NUM_RINGS) / float(NUM_SAMPLES)` (line 40). -/
noncomputable def ANGLE_STEP : ℝ :=
  2 * Real.pi * (NUM_RINGS : ℝ) / (NUM_SAMPLES : ℝ)

/-- `INV_NUM_SAMPLES = 1.0 / float(NUM_SAMPLES)` (line 41). -/
noncomputable def INV_NUM_SAMPLES : ℝ := 1 / (NUM_SAMPLES : ℝ)

/-- The loop of `initPoissonSamples` (lines 48-52): `n` remaining
iterations, current `angle` and `radius`; each iteration emits
`vec2(cos(angle), sin(angle)) * pow(radius, 0.75)` and advances
`radius += radiusStep; angle += angleStep`. -/
noncomputable def initPoissonAux (angle radius radiusStep angleStep : ℝ) :
    ℕ → List (ℝ × ℝ)
  | 0 => []
  | Nat.succ n =>
      (Real.cos angle * radius ^ (0.75 : ℝ),
       Real.sin angle * radius ^ (0.75 : ℝ)) ::
        initPoissonAux (angle + angleStep) (radius + radiusStep) radiusStep
          angleStep n

/-- `initPoissonSamples` (lines 39-53): the poisson disk filled from the
seed, starting at `angle = rand(seed) * PI2`, `radius = INV_NUM_SAMPLES`,
`radiusStep = radius`. -/
noncomputable def initPoissonSamples (rand : ℝ × ℝ → ℝ) (seed : ℝ × ℝ) :
    List (ℝ × ℝ) :=
  initPoissonAux (rand seed * (2 * Real.pi)) INV_NUM_SAMPLES INV_NUM_SAMPLES
    ANGLE_STEP NUM_SAMPLES

/-- The `i`-th poisson-disk entry for the given seed (out-of-range reads
default to the origin). -/
noncomputable def diskOf (rand : ℝ × ℝ → ℝ) (seed : ℝ × ℝ) (i : ℕ) : ℝ × ℝ :=
  (initPoissonSamples rand seed).getD i (0, 0)

/-- `penumbraSize` (lines 55-57): `(zReceiver - zBlocker) / zBlocker`. -/
noncomputable def penumbraSize (zReceiver zBlocker : ℝ) : ℝ :=
  (zReceiver - zBlocker) / zBlocker

/-- The blocker-search radius of `findBlocker` (line 62):
`LIGHT_SIZE_UV * (zReceiver - NEAR_PLANE) / zReceiver`. -/
noncomputable def searchRadiusDef (zReceiver : ℝ) : ℝ :=
  LIGHT_SIZE_UV * (zReceiver - NEAR_PLANE) / zReceiver

/-- One decoded shadow-map sample at `uv + offset * r` (lines 67 and 82). -/
noncomputable def sampleAt (shadowMap : ℝ × ℝ → ℝ) (uv offset : ℝ × ℝ)
    (r : ℝ) : ℝ :=
  shadowMap (uv.1 + offset.1 * r, uv.2 + offset.2 * r)

/-- `numBlockers` after the search loop of `findBlocker` (lines 63-72). -/
noncomputable def blockerCount (shadowMap : ℝ × ℝ → ℝ) (disk : ℕ → ℝ × ℝ)
    (uv : ℝ × ℝ) (zReceiver : ℝ) : ℕ :=
  ((Finset.range NUM_SAMPLES).filter (fun i =>
    sampleAt shadowMap uv (disk i) (searchRadiusDef zReceiver) < zReceiver)).card

/-- `blockerDepthSum` after the search loop of `findBlocker` (lines 63-72). -/
noncomputable def blockerDepthSum (shadowMap : ℝ × ℝ → ℝ) (disk : ℕ → ℝ × ℝ)
    (uv : ℝ × ℝ) (zReceiver : ℝ) : ℝ :=
  ∑ i in (Finset.range NUM_SAMPLES).filter (fun i =>
      sampleAt shadowMap uv (disk i) (searchRadiusDef zReceiver) < zReceiver),
    sampleAt shadowMap uv (disk i) (searchRadiusDef zReceiver)

/-- `findBlocker` (lines 59-77): the average blocker depth, or the sentinel
`-1.0` when no sample is closer to the light than the receiver. -/
noncomputable def findBlocker (shadowMap : ℝ × ℝ → ℝ) (disk : ℕ → ℝ × ℝ)
    (uv : ℝ × ℝ) (zReceiver : ℝ) : ℝ :=
  if blockerCount shadowMap disk uv zReceiver = 0 then -1
  else blockerDepthSum shadowMap disk uv zReceiver /
    (blockerCount shadowMap disk uv zReceiver : ℝ)

/-- `PCF_Filter` (lines 79-90): two passes of `NUM_SAMPLES` taps, the
second with the offset's components swapped and negated; count the taps
whose depth is at least `zReceiver` and divide by `2 * NUM_SAMPLES`. -/
noncomputable def PCF_Filter (shadowMap : ℝ × ℝ → ℝ) (disk : ℕ → ℝ × ℝ)
    (uv : ℝ × ℝ) (zReceiver filterRadius : ℝ) : ℝ :=
  ((∑ i in Finset.range NUM_SAMPLES,
      if zReceiver ≤ sampleAt shadowMap uv (disk i) filterRadius then (1 : ℝ)
      else 0) +
   (∑ i in Finset.range NUM_SAMPLES,
      if zReceiver ≤ sampleAt shadowMap uv (-(disk i).2, -(disk i).1)
          filterRadius then (1 : ℝ)
      else 0)) / (2 * (NUM_SAMPLES : ℝ))

/-- The filter radius computed in `PCSS` (lines 104-105):
`penumbraRatio * LIGHT_SIZE_UV * NEAR_PLANE / zReceiver` with
`penumbraRatio = penumbraSize(zReceiver, avgBlockerDepth)`. -/
noncomputable def filterRadiusOf (zReceiver avgBlockerDepth : ℝ) : ℝ :=
  penumbraSize zReceiver avgBlockerDepth * LIGHT_SIZE_UV * NEAR_PLANE /
    zReceiver

/-- `PCSS` (lines 92-110): `uv = coords.xy`, `zReceiver = coords.z`, fill
the poisson disk from `uv`, run the blocker search, return `1.0` on the
`-1.0` sentinel, otherwise filter with the penumbra-scaled radius. -/
noncomputable def PCSS (shadowMap rand : ℝ × ℝ → ℝ) (coords : ℝ × ℝ × ℝ) :
    ℝ :=
  let uv := (coords.1, coords.2.1)
  let zReceiver := coords.2.2
  let avgBlockerDepth := findBlocker shadowMap (diskOf rand uv) uv zReceiver
  if avgBlockerDepth = -1 then 1
  else PCF_Filter shadowMap (diskOf rand uv) uv zReceiver
    (filterRadiusOf zReceiver avgBlockerDepth)

/-- `PCSS` instrumented with whether the filtering pass (`PCF_Filter`) was
reached; its first component is the value `PCSS` returns. -/
noncomputable def pcssRun (shadowMap rand : ℝ × ℝ → ℝ) (coords : ℝ × ℝ × ℝ) :
    ℝ × Bool :=
  let uv := (coords.1, coords.2.1)
  let zReceiver := coords.2.2
  let avgBlockerDepth := findBlocker shadowMap (diskOf rand uv) uv zReceiver
  if avgBlockerDepth = -1 then (1, false)
  else (PCF_Filter shadowMap (diskOf rand uv) uv zReceiver
    (filterRadiusOf zReceiver avgBlockerDepth), true)

/-- `PCSS` on an explicit coordinate triple, unfolded. -/
lemma PCSS_mk (shadowMap rand : ℝ × ℝ → ℝ) (u v z : ℝ) :
    PCSS shadowMap rand (u, v, z) =
      if findBlocker shadowMap (diskOf rand (u, v)) (u, v) z = -1 then 1
      else PCF_Filter shadowMap (diskOf rand (u, v)) (u, v) z
        (filterRadiusOf z
          (findBlocker shadowMap (diskOf rand (u, v)) (u, v) z)) := rfl

/-- `pcssRun` on an explicit coordinate triple, unfolded. -/
lemma pcssRun_mk (shadowMap rand : ℝ × ℝ → ℝ) (u v z : ℝ) :
    pcssRun shadowMap rand (u, v, z) =
      if findBlocker shadowMap (diskOf rand (u, v)) (u, v) z = -1
      then (1, false)
      else (PCF_Filter shadowMap (diskOf rand (u, v)) (u, v) z
        (filterRadiusOf z
          (findBlocker shadowMap (diskOf rand (u, v)) (u, v) z)), true) := rfl

/-- On a uniform shadow map every sample decodes to the same depth. -/
lemma sampleAt_const (d : ℝ) (uv offset : ℝ × ℝ) (r : ℝ) :
    sampleAt (fun _ => d) uv offset r = d := rfl

/-- `numBlockers` on a uniform shadow map of depth `d`: all 17 samples or
none, depending on `d < zReceiver`. -/
lemma blockerCount_const (d z : ℝ) (disk : ℕ → ℝ × ℝ) (uv : ℝ × ℝ) :
    blockerCount (fun _ => d) disk uv z = if d < z then NUM_SAMPLES else 0 := by
  unfold blockerCount sampleAt
  by_cases h : d < z <;> simp [h, NUM_SAMPLES]

/-- `blockerDepthSum` on a uniform shadow map of depth `d`. -/
lemma blockerDepthSum_const (d z : ℝ) (disk : ℕ → ℝ × ℝ) (uv : ℝ × ℝ) :
    blockerDepthSum (fun _ => d) disk uv z =
      if d < z then (NUM_SAMPLES : ℝ) * d else 0 := by
  unfold blockerDepthSum sampleAt
  by_cases h : d < z <;> simp [h, NUM_SAMPLES, Finset.sum_const, mul_comm]

/-- `findBlocker` on a uniform shadow map of depth `d`: the average is `d`
itself when `d` blocks, else the `-1.0` sentinel. -/
lemma findBlocker_const (d z : ℝ) (disk : ℕ → ℝ × ℝ) (uv : ℝ × ℝ) :
    findBlocker (fun _ => d) disk uv z = if d < z then d else -1 := by
  unfold findBlocker
  rw [blockerCount_const, blockerDepthSum_const]
  by_cases h : d < z
  · have h17 : ((NUM_SAMPLES : ℕ) : ℝ) ≠ 0 := by norm_num [NUM_SAMPLES]
    simp [h, NUM_SAMPLES, mul_comm, mul_div_assoc]
  · simp [h]

/-- `PCF_Filter` on a uniform shadow map of depth `d`: all 34 taps agree,
so the result is 1 when `zReceiver ≤ d` and 0 otherwise. -/
lemma PCF_Filter_const (d z fr : ℝ) (disk : ℕ → ℝ × ℝ) (uv : ℝ × ℝ) :
    PCF_Filter (fun _ => d) disk uv z fr = if z ≤ d then 1 else 0 := by
  unfold PCF_Filter sampleAt
  by_cases h : z ≤ d <;> simp [h, NUM_SAMPLES] <;> norm_num

/-- `PCSS` on a uniform shadow map whose depth blocks the receiver (and is
not the `-1.0` sentinel) runs the filtering pass and returns 0. -/
lemma PCSS_const_blocked (d z u v : ℝ) (rand : ℝ × ℝ → ℝ) (h1 : d < z)
    (h2 : d ≠ -1) :
    PCSS (fun _ => d) rand (u, v, z) = 0 := by
  rw [PCSS_mk, findBlocker_const, if_pos h1, if_neg h2, PCF_Filter_const,
    if_neg (not_le.mpr h1)]

/-- For `0 < zReceiver ≤ NEAR_PLANE` the blocker-search radius is not
positive — the shader searches a degenerate (inverted) region. -/
lemma searchRadius_nonpos (z : ℝ) (h1 : 0 < z) (h2 : z ≤ NEAR_PLANE) :
    searchRadiusDef z ≤ 0 := by
  unfold searchRadiusDef
  unfold NEAR_PLANE at h2
  have hnum : LIGHT_SIZE_UV * (z - NEAR_PLANE) ≤ 0 := by
    have hzn : z - NEAR_PLANE ≤ 0 := by unfold NEAR_PLANE; linarith
    have hK : (0 : ℝ) ≤ LIGHT_SIZE_UV := by norm_num [LIGHT_SIZE_UV]
    exact mul_nonpos_of_nonneg_of_nonpos hK hzn
  exact div_nonpos_of_nonpos_of_nonneg hnum h1.le

/-- Claim C2, counterexample: `zReceiver = 0.5 ≤ NEAR_PLANE`, yet on a
shadow map of uniform decoded depth 0 the shader returns 0, not the fully
lit 1.0 the claim asserts — there is no degenerate-input guard. -/
theorem c2_cex :
    PCSS (fun _ => 0) (fun _ => 0) (0, 0, 1 / 2) ≠ 1 := by
  rw [PCSS_const_blocked 0 (1 / 2) 0 0 (fun _ => 0) (by norm_num)
    (by norm_num)]
  norm_num

/-- Claim C2 as amended: the shader has no guard for
`zReceiver ≤ NEAR_PLANE` (nor for any other degenerate input): it runs the
blocker search with a non-positive search radius and returns whatever the
general algorithm computes from the sampled depths.  On a uniform map
whose depth `d` blocks the receiver (`d < zReceiver`, `d ≠ -1.0`), the
result is 0 — fully shadowed, not fully lit. -/
theorem c2_thm (d z u v : ℝ) (rand : ℝ × ℝ → ℝ) (h1 : 0 < z)
    (h2 : z ≤ NEAR_PLANE) (h3 : d < z) (h4 : d ≠ -1) :
    searchRadiusDef z ≤ 0 ∧ PCSS (fun _ => d) rand (u, v, z) = 0 :=
  ⟨searchRadius_nonpos z h1 h2, PCSS_const_blocked d z u v rand h3 h4⟩

/-- Witness for claim C2's amended theorem at depth 0, receiver 0.5. -/
theorem c2_witness :
    (0 : ℝ) < 1 / 2 ∧ (1 / 2 : ℝ) ≤ NEAR_PLANE ∧ (0 : ℝ) < 1 / 2 ∧
    (0 : ℝ) ≠ -1 ∧
    (searchRadiusDef (1 / 2) ≤ 0 ∧
      PCSS (fun _ => 0) (fun _ => 0) (0, 0, 1 / 2) = 0) :=
  ⟨by norm_num, by norm_num [NEAR_PLANE], by norm_num, by norm_num,
   c2_thm 0 (1 / 2) 0 0 (fun _ => 0) (by norm_num) (by norm_num [NEAR_PLANE])
     (by norm_num) (by norm_num)⟩

/-- Claim C6: when the blocker search finds no blocker — every sampled
depth at the search offsets is at least `zReceiver` — `PCSS` returns 1.0
and the filtering pass is never reached. -/
theorem c6_thm (shadowMap rand : ℝ × ℝ → ℝ) (u v z : ℝ)
    (h : ∀ i ∈ Finset.range NUM_SAMPLES,
      ¬ sampleAt shadowMap (u, v) (diskOf rand (u, v) i) (searchRadiusDef z)
        < z) :
    PCSS shadowMap rand (u, v, z) = 1 ∧
    (pcssRun shadowMap rand (u, v, z)).2 = false := by
  have hc : blockerCount shadowMap (diskOf rand (u, v)) (u, v) z = 0 := by
    unfold blockerCount
    rw [Finset.filter_false_of_mem h]
    exact Finset.card_empty
  have hfb : findBlocker shadowMap (diskOf rand (u, v)) (u, v) z = -1 := by
    unfold findBlocker
    rw [hc]
    simp
  constructor
  · rw [PCSS_mk, if_pos hfb]
  · rw [pcssRun_mk, if_pos hfb]

/-- Witness for claim C6's theorem: a shadow map of uniform decoded depth
1.0 with `zReceiver = 0.5` finds no blocker and yields attenuation 1.0
without filtering. -/
theorem c6_witness :
    (∀ i ∈ Finset.range NUM_SAMPLES,
      ¬ sampleAt (fun _ => (1 : ℝ)) ((0 : ℝ), (0 : ℝ))
        (diskOf (fun _ => 0) (0, 0) i) (searchRadiusDef (1 / 2)) < 1 / 2) ∧
    PCSS (fun _ => 1) (fun _ => 0) (0, 0, 1 / 2) = 1 ∧
    (pcssRun (fun _ => 1) (fun _ => 0) (0, 0, 1 / 2)).2 = false := by
  have h : ∀ i ∈ Finset.range NUM_SAMPLES,
      ¬ sampleAt (fun _ => (1 : ℝ)) ((0 : ℝ), (0 : ℝ))
        (diskOf (fun _ => 0) (0, 0) i) (searchRadiusDef (1 / 2)) < 1 / 2 := by
    intro i hi
    rw [sampleAt_const]
    norm_num
  exact ⟨h, (c6_thm (fun _ => 1) (fun _ => 0) 0 0 (1 / 2) h).1,
    (c6_thm (fun _ => 1) (fun _ => 0) 0 0 (1 / 2) h).2⟩

/-- Claim C7: with the receiver depth fixed and positive, the filter radius
`penumbraSize(z, b) * LIGHT_SIZE_UV * NEAR_PLANE / z` does not decrease
when the average blocker depth decreases over positive values. -/
theorem c7_thm (z b1 b2 : ℝ) (hz : 0 < z) (hb1 : 0 < b1) (hle : b1 ≤ b2) :
    filterRadiusOf z b2 ≤ filterRadiusOf z b1 := by
  have hb2 : 0 < b2 := lt_of_lt_of_le hb1 hle
  have key : penumbraSize z b2 ≤ penumbraSize z b1 := by
    unfold penumbraSize
    rw [div_le_div_iff hb2 hb1]
    nlinarith [mul_le_mul_of_nonneg_left hle hz.le]
  have hK : (0 : ℝ) ≤ LIGHT_SIZE_UV := by norm_num [LIGHT_SIZE_UV]
  have hN : (0 : ℝ) ≤ NEAR_PLANE := by norm_num [NEAR_PLANE]
  unfold filterRadiusOf
  apply div_le_div_of_nonneg_right ?_ hz.le
  exact mul_le_mul_of_nonneg_right
    (mul_le_mul_of_nonneg_right key hK) hN

/-- Witness for claim C7's theorem: halving the blocker depth from 1 to 1/2
at receiver depth 1 does not decrease the filter radius. -/
theorem c7_witness :
    (0 : ℝ) < 1 ∧ (0 : ℝ) < 1 / 2 ∧ (1 / 2 : ℝ) ≤ 1 ∧
    filterRadiusOf 1 1 ≤ filterRadiusOf 1 (1 / 2) :=
  ⟨by norm_num, by norm_num, by norm_num,
   c7_thm 1 (1 / 2) 1 (by norm_num) (by norm_num) (by norm_num)⟩

/-- The sample loop emits one offset per iteration. -/
lemma initPoissonAux_length (a r s st : ℝ) (n : ℕ) :
    (initPoissonAux a r s st n).length = n := by
  induction n generalizing a r with
  | zero => rfl
  | succ n ih => simp [initPoissonAux, ih]

/-- Every offset the sample loop emits has Euclidean magnitude at most 1,
provided every radius the loop will use lies in `[0, 1]`. -/
lemma initPoissonAux_norm (a r s st : ℝ) (n : ℕ) (hr : 0 ≤ r) (hs : 0 ≤ s)
    (H : ∀ k : ℕ, k < n → r + (k : ℝ) * s ≤ 1) :
    ∀ p ∈ initPoissonAux a r s st n,
      Real.sqrt (p.1 ^ 2 + p.2 ^ 2) ≤ 1 := by
  induction n generalizing a r with
  | zero =>
    intro p hp
    simp [initPoissonAux] at hp
  | succ n ih =>
    intro p hp
    simp only [initPoissonAux, List.mem_cons] at hp
    rcases hp with h | h
    · subst h
      have hr1 : r ≤ 1 := by
        have := H 0 (Nat.succ_pos n)
        simpa using this
      have hm0 : 0 ≤ r ^ (0.75 : ℝ) := Real.rpow_nonneg hr _
      have hm1 : r ^ (0.75 : ℝ) ≤ 1 := Real.rpow_le_one hr hr1 (by norm_num)
      have hsq : (Real.cos a * r ^ (0.75 : ℝ)) ^ 2 +
          (Real.sin a * r ^ (0.75 : ℝ)) ^ 2 = (r ^ (0.75 : ℝ)) ^ 2 := by
        have hpy : (Real.cos a * r ^ (0.75 : ℝ)) ^ 2 +
            (Real.sin a * r ^ (0.75 : ℝ)) ^ 2 =
            (Real.sin a ^ 2 + Real.cos a ^ 2) * (r ^ (0.75 : ℝ)) ^ 2 := by
          ring
        rw [hpy, Real.sin_sq_add_cos_sq, one_mul]
      calc Real.sqrt ((Real.cos a * r ^ (0.75 : ℝ)) ^ 2 +
            (Real.sin a * r ^ (0.75 : ℝ)) ^ 2)
          = r ^ (0.75 : ℝ) := by rw [hsq, Real.sqrt_sq hm0]
        _ ≤ 1 := hm1
    · refine ih (a + st) (r + s) (by positivity) ?_ p h
      intro k hk
      have hH := H (k + 1) (by omega)
      push_cast at hH ⊢
      linarith

/-- Claim C9: for every hash function and every seed, `initPoissonSamples`
produces exactly 17 offsets; every entry of the disk (out-of-range reads
default to the origin) has Euclidean magnitude at most 1; and the sequence
is a pure function of the seed, so an identical seed yields an identical
sequence. -/
theorem c9_thm (rand : ℝ × ℝ → ℝ) (seed : ℝ × ℝ) (i : ℕ) :
    (initPoissonSamples rand seed).length = 17 ∧
    Real.sqrt ((diskOf rand seed i).1 ^ 2 + (diskOf rand seed i).2 ^ 2) ≤ 1 ∧
    initPoissonSamples rand seed = initPoissonSamples rand seed := by
  have hlen : (initPoissonSamples rand seed).length = 17 :=
    initPoissonAux_length _ _ _ _ _
  refine ⟨hlen, ?_, rfl⟩
  by_cases hi : i < (initPoissonSamples rand seed).length
  · have hmem : diskOf rand seed i ∈ initPoissonSamples rand seed := by
      unfold diskOf
      rw [List.getD_eq_getElem _ _ hi]
      exact List.getElem_mem hi
    refine initPoissonAux_norm _ _ _ _ _ ?_ ?_ ?_ _ hmem
    · norm_num [INV_NUM_SAMPLES, NUM_SAMPLES]
    · norm_num [INV_NUM_SAMPLES, NUM_SAMPLES]
    · intro k hk
      unfold INV_NUM_SAMPLES NUM_SAMPLES
      unfold NUM_SAMPLES at hk
      have hk16 : (k : ℝ) ≤ 16 := by exact_mod_cast Nat.le_of_lt_succ hk
      push_cast
      linarith
  · unfold diskOf
    rw [List.getD_eq_default _ _ (le_of_not_lt hi)]
    norm_num
